import Mathlib

/-!
A shallow embedding of the resource-lifetime / frame-synchronization core of
the `dess-backend` crate (files `src/droplist.rs`, `src/vulkan/device.rs`,
`src/error.rs`), together with theorems settling the specification claims.

Vulkan object handles (`vk::Image`, `vk::Buffer`, `vk::Fence`, …) are opaque
u64-backed handles in the source; they are modelled as `Nat` ids.  Calls into
the GPU driver and into the two allocator collaborators are modelled as an
explicit trace of `Event`s, so that "destroys", "frees" and "waits" become
inspectable data.
-/

namespace Dess

/-- One outbound call to the GPU driver or to an allocator collaborator.
Handles are `Nat` ids. -/
inductive Event where
  | destroyImage (h : Nat)
  | destroyBuffer (h : Nat)
  | deallocMemory (h : Nat)
  | freeDescriptorSets (ds : List Nat)
  | waitForFences (fences : List Nat) (waitAll : Bool) (timeout : Nat)
  | resetCommandPool (pool : Nat)
  | createCommandPool (h : Nat)
  | createSemaphore (h : Nat)
  | allocateCommandBuffer (h : Nat)
  | createFence (h : Nat) (signaled : Bool)
  | createSampler (h : Nat)
  | destroyCommandPool (h : Nat)
  | destroySemaphore (h : Nat)
  | destroyFence (h : Nat)
  | destroySampler (h : Nat)
  | deviceWaitIdle
  | memoryAllocatorCleanup
  | descriptorAllocatorCleanup
  | destroyDevice
  deriving DecidableEq, Repr

/-! ## DropList (`src/droplist.rs`)

```rust
pub struct DropList {
    images: Vec<vk::Image>,
    buffers: Vec<vk::Buffer>,
    memory: Vec<GpuMemory>,
    descriptors: Vec<DescriptorSet>,
}
```
-/

structure DropList where
  images : List Nat
  buffers : List Nat
  memory : List Nat
  descriptors : List Nat
  deriving DecidableEq, Repr

namespace DropList

/-- `DropList::default()`: all four vectors empty. -/
def default : DropList := ⟨[], [], [], []⟩

/-- `pub fn drop_image(&mut self, image: vk::Image) { self.images.push(image); }` -/
def drop_image (l : DropList) (image : Nat) : DropList :=
  { l with images := l.images ++ [image] }

/-- `pub fn drop_buffer(&mut self, buffer: vk::Buffer) { self.buffers.push(buffer); }` -/
def drop_buffer (l : DropList) (buffer : Nat) : DropList :=
  { l with buffers := l.buffers ++ [buffer] }

/-- `pub fn drop_descriptor_set(&mut self, ds: DescriptorSet) { self.descriptors.push(ds); }` -/
def drop_descriptor_set (l : DropList) (ds : Nat) : DropList :=
  { l with descriptors := l.descriptors ++ [ds] }

/-- `pub fn drop_memory(&mut self, memory: GpuMemory) { self.memory.push(memory); }` -/
def drop_memory (l : DropList) (memory : Nat) : DropList :=
  { l with memory := l.memory ++ [memory] }

/-- `Vec::drain(..).for_each(f)`: removes the elements front to back, calling
`f` on each in order.  Modelled as the list of calls `f` makes. -/
def drainForEach (f : Nat → Event) : List Nat → List Event
  | [] => []
  | x :: xs => f x :: drainForEach f xs

/-- `DropList::cleanup` (droplist.rs:32-53).  Drains `images`, then `buffers`
(each entry destroyed with a direct device call), then `memory` (each block
returned to the memory allocator), and finally frees the drained `descriptors`
in a single call to the descriptor allocator.  Returns the emptied list and
the trace of calls issued, in order. -/
def cleanup (l : DropList) : DropList × List Event :=
  ( ⟨[], [], [], []⟩
  , drainForEach Event.destroyImage l.images
      ++ drainForEach Event.destroyBuffer l.buffers
      ++ drainForEach Event.deallocMemory l.memory
      ++ [Event.freeDescriptorSets l.descriptors] )

end DropList

/-! ## Retire sequences (for claims about arbitrary interleavings) -/

/-- One application-side retire request, funnelled into a `DropList` through
`Device::with_drop_list` / the `drop_*` methods. -/
inductive RetireOp where
  | image (h : Nat)
  | buffer (h : Nat)
  | memory (h : Nat)
  | descriptorSet (h : Nat)
  deriving DecidableEq, Repr

/-- Apply one retire request to a `DropList` (dispatching to the `drop_*`
method the request names). -/
def applyRetire (l : DropList) : RetireOp → DropList
  | .image h => l.drop_image h
  | .buffer h => l.drop_buffer h
  | .memory h => l.drop_memory h
  | .descriptorSet h => l.drop_descriptor_set h

/-- Apply a sequence of retire requests left to right. -/
def applyRetires (l : DropList) : List RetireOp → DropList
  | [] => l
  | op :: ops => applyRetires (applyRetire l op) ops

/-- The image handles of a retire sequence, in order. -/
def retiredImages : List RetireOp → List Nat
  | [] => []
  | .image h :: ops => h :: retiredImages ops
  | _ :: ops => retiredImages ops

/-- The buffer handles of a retire sequence, in order. -/
def retiredBuffers : List RetireOp → List Nat
  | [] => []
  | .buffer h :: ops => h :: retiredBuffers ops
  | _ :: ops => retiredBuffers ops

/-- The memory blocks of a retire sequence, in order. -/
def retiredMemory : List RetireOp → List Nat
  | [] => []
  | .memory h :: ops => h :: retiredMemory ops
  | _ :: ops => retiredMemory ops

/-- The descriptor sets of a retire sequence, in order. -/
def retiredDescriptorSets : List RetireOp → List Nat
  | [] => []
  | .descriptorSet h :: ops => h :: retiredDescriptorSets ops
  | _ :: ops => retiredDescriptorSets ops

/-! ## Errors (`src/error.rs`)

The snapshot's `error.rs` declares `LoadingError`, `VulkanError(vk::Result)`
and `RawWindowHandleError`.  `device.rs:200` also uses
`BackendError::NoSuitableQueue` and `device.rs:267` uses
`BackendError::MemoryAllocationFailed(err, request)`; the declarations of
those two variants are missing from the snapshot's `error.rs`, so they are
reconstructed below from their use sites and from spec §7(b) ("allocation
failures ... surfaced with the original request attached").
-/

/-- `gpu_alloc::Request`, the argument of `Device::allocate_memory`: the
allocation request parameters (size, alignment mask, usage flags,
memory-type mask), all modelled as `Nat`. -/
structure AllocRequest where
  size : Nat
  align_mask : Nat
  usage : Nat
  memory_types : Nat
  deriving DecidableEq, Repr

/-- `BackendError` (error.rs:3-11 plus the two variants used at
device.rs:200 and device.rs:267).  Vulkan status codes, window-handle errors
and `gpu_alloc` allocation errors are opaque `Nat` codes.
Modelled from the spec: the `noSuitableQueue` and `memoryAllocationFailed`
variant declarations, absent from the snapshot's `error.rs`, are taken from
their `device.rs` use sites; `memoryAllocationFailed` carries the allocator
error and the original request, per spec §7(b). -/
inductive BackendError where
  | loadingError
  | vulkanError (code : Nat)
  | rawWindowHandleError (err : Nat)
  | noSuitableQueue
  | memoryAllocationFailed (err : Nat) (request : AllocRequest)
  deriving DecidableEq, Repr

/-! ## FrameContext (`src/vulkan/device.rs`) -/

/-- `CommandBuffer` (device.rs:54-58): a command-buffer handle paired with
its completion fence handle. -/
structure CommandBuffer where
  cb : Nat
  fence : Nat
  deriving DecidableEq, Repr

/-- `DeviceFrame` (device.rs:77-85): one in-flight frame slot. -/
structure DeviceFrame where
  pool : Nat
  swapchain_acquired : Nat
  rendering_finished : Nat
  drop_list : DropList
  main_cb : CommandBuffer
  presentation_cb : CommandBuffer
  deriving DecidableEq, Repr

/-- A failure oracle for a run of `DeviceFrame::new`: `fail k = some code`
means the k-th driver creation call of the run returns the Vulkan error
status `code`; `fail k = none` means it succeeds.  Call indices, in source
order: 0 `create_command_pool`, 1 `create_semaphore` (swapchain_acquired),
2 `create_semaphore` (rendering_finished), 3/4 the first
`CommandBuffer::new` (`allocate_command_buffers`, `create_fence`), 5/6 the
second `CommandBuffer::new`. -/
def FailOracle : Type := Nat → Option Nat

/-- `CommandBuffer::new` (device.rs:61-70): allocates one primary command
buffer from the pool, then creates its completion fence with
`FenceCreateFlags::SIGNALED` (initially signaled).  Each `?` on a failing
driver call returns the error immediately, with no cleanup of the command
buffer allocated just before (vk handles are plain values with no drop
glue).  `k` is the index of this call pair in the enclosing
`DeviceFrame::new` run; `cbId`/`fenceId` are the handles the driver returns
on success.  Returns the result and the trace of successful creation
calls. -/
def CommandBuffer.new (fail : FailOracle) (k cbId fenceId : Nat) :
    Except BackendError CommandBuffer × List Event :=
  match fail k with
  | some code => (Except.error (BackendError.vulkanError code), [])
  | none =>
    match fail (k + 1) with
    | some code =>
        (Except.error (BackendError.vulkanError code), [Event.allocateCommandBuffer cbId])
    | none =>
        (Except.ok ⟨cbId, fenceId⟩,
         [Event.allocateCommandBuffer cbId, Event.createFence fenceId true])

/-- `DeviceFrame::new` (device.rs:124-141): creates the command pool, the
two semaphores, then the two command buffers (each with its pre-signaled
fence), in that order.  Every fallible call uses `?`: on the first failure
the error propagates at once and NO destroy call is issued for the objects
created earlier in the run.  Handles are numbered `base`, `base+1`, ….
Returns the result and the trace of creation calls issued. -/
def DeviceFrame.new (fail : FailOracle) (base : Nat) :
    Except BackendError DeviceFrame × List Event :=
  match fail 0 with
  | some code => (Except.error (BackendError.vulkanError code), [])
  | none =>
    let pool := base
    let tr0 := [Event.createCommandPool pool]
    match fail 1 with
    | some code => (Except.error (BackendError.vulkanError code), tr0)
    | none =>
      let swapchain_acquired := base + 1
      let tr1 := tr0 ++ [Event.createSemaphore swapchain_acquired]
      match fail 2 with
      | some code => (Except.error (BackendError.vulkanError code), tr1)
      | none =>
        let rendering_finished := base + 2
        let tr2 := tr1 ++ [Event.createSemaphore rendering_finished]
        match CommandBuffer.new fail 3 (base + 3) (base + 4) with
        | (Except.error e, tr) => (Except.error e, tr2 ++ tr)
        | (Except.ok main_cb, tr3) =>
          match CommandBuffer.new fail 5 (base + 5) (base + 6) with
          | (Except.error e, tr) => (Except.error e, tr2 ++ tr3 ++ tr)
          | (Except.ok presentation_cb, tr5) =>
            (Except.ok
              ⟨pool, swapchain_acquired, rendering_finished, DropList.default,
               main_cb, presentation_cb⟩,
             tr2 ++ tr3 ++ tr5)

/-- `DeviceFrame::free` (device.rs:156-164): destroys the command pool, the
two command buffers' fences (`CommandBuffer::free` destroys only the
fence), then the two semaphores, in source order. -/
def DeviceFrame.free (f : DeviceFrame) : List Event :=
  [Event.destroyCommandPool f.pool,
   Event.destroyFence f.main_cb.fence,
   Event.destroyFence f.presentation_cb.fence,
   Event.destroySemaphore f.rendering_finished,
   Event.destroySemaphore f.swapchain_acquired]

/-! ## Device frame state machine (`src/vulkan/device.rs`)

Reference semantics needed for the two `mem::swap` sites:

* device.rs:317 `mem::swap(&mut frame_drop_list, &mut current_drop_list)` —
  both operands are the local variables holding `MutexGuard<DropList>`
  values.  `mem::swap::<MutexGuard<DropList>>` exchanges the two guard
  structs (each a pointer to its mutex) between the two local slots; the
  `DropList` data behind the mutexes is never written.  (Exchanging the
  guarded data would be `mem::swap(&mut *a, &mut *b)`.)

* device.rs:330 `mem::swap(&mut frame0, &mut frame1)` — both operands are
  local variables of type `&mut DeviceFrame` (results of `Arc::get_mut`).
  The swap exchanges the two references between the local slots; neither
  `DeviceFrame` is written.

Both locals go out of scope immediately after, so both statements leave the
device state unchanged.  The model below keeps the locals and the swap
explicit so this can be checked against the source.
-/

/-- Rust `mem::swap(&mut x, &mut y)`, modelled on the two values the places
hold: returns the new contents of the places (x, y) after the exchange. -/
def mem_swap {α : Type} (x y : α) : α × α := (y, x)

/-- The value of a live `MutexGuard<DropList>` local in `begin_frame`: a
reference to the mutex it locks (either slot 0's `drop_list` or the
Device's `current_drop_list`). -/
inductive ListGuard where
  | frameSlot0
  | currentList
  deriving DecidableEq, Repr

/-- The value of a `&mut DeviceFrame` local in `end_frame`: which physical
slot of `self.frames` it points at. -/
inductive SlotRef where
  | slot0
  | slot1
  deriving DecidableEq, Repr

/-- The mutable state of a `Device` relevant to the frame state machine:
the two frame slots (`frames[0]`, `frames[1]`), whether another `Arc` clone
of `frames[0]` is still live (`Arc::get_mut` fails then), the process-wide
current drop list, and the signal state of each fence handle. -/
structure DeviceState where
  frame0 : DeviceFrame
  frame1 : DeviceFrame
  slot0_shared : Bool
  current_drop_list : DropList
  fence_signaled : Nat → Bool

/-- `Device::with_drop_list` (device.rs:294-296): runs `cb` on the
process-wide current drop list under its own mutex. -/
def with_drop_list (s : DeviceState) (cb : DropList → DropList) : DeviceState :=
  { s with current_drop_list := cb s.current_drop_list }

/-- `vkWaitForFences(fences, waitAll := true, timeout := u64::MAX)`:
returns once every listed fence is signaled.  With the `u64::MAX` timeout an
unsignaled fence blocks the call indefinitely, modelled as `none` (the call
does not return while a fence is unsignaled). -/
def wait_for_fences (signaled : Nat → Bool) (fences : List Nat) : Option Unit :=
  if fences.all signaled then some () else none

/-- How a call into the frame state machine ends. -/
inductive Outcome (σ : Type) where
  | ok (s : σ)
  | blocked
  | panicked

/-- `Device::begin_frame` (device.rs:298-320).
1. lock `frames[0]`; `Arc::get_mut(..).expect(..)` panics if another clone
   of the slot is live;
2. `wait_for_fences([main_cb.fence, presentation_cb.fence], true, u64::MAX)`;
3. `frame.reset(..)`: `reset_command_pool` then `drop_list.lock().cleanup(..)`;
4. the `mem::swap` on the two `MutexGuard` locals (see above: exchanges the
   guard values, not the guarded lists);
5. returns `Ok(frame.clone())` — the clone makes the slot shared.
The driver's `reset_command_pool` and a successfully-returning fence wait
are taken to succeed (their error paths decide no claim).  Returns the
outcome plus the trace of driver calls issued. -/
def begin_frame (s : DeviceState) :
    Outcome (DeviceState × DeviceFrame) × List Event :=
  if s.slot0_shared then (Outcome.panicked, [])
  else
    let frame := s.frame0
    let fences := [frame.main_cb.fence, frame.presentation_cb.fence]
    let waitEvt := Event.waitForFences fences true (2 ^ 64 - 1)
    match wait_for_fences s.fence_signaled fences with
    | none => (Outcome.blocked, [waitEvt])
    | some _ =>
      let (emptied, cleanupTrace) := frame.drop_list.cleanup
      let frame := { frame with drop_list := emptied }
      -- let mut frame_drop_list = frame.drop_list.lock();
      let frame_drop_list : ListGuard := ListGuard.frameSlot0
      -- let mut current_drop_list = self.current_drop_list.lock();
      let current_drop_list : ListGuard := ListGuard.currentList
      -- mem::swap(&mut frame_drop_list, &mut current_drop_list);
      let (_frame_drop_list', _current_drop_list') :=
        mem_swap frame_drop_list current_drop_list
      -- both guards are dropped here; no heap cell was written by the swap
      let s' := { s with frame0 := frame, slot0_shared := true }
      ( Outcome.ok (s', frame)
      , waitEvt :: Event.resetCommandPool frame.pool :: cleanupTrace )

/-- `Device::end_frame` (device.rs:322-332).  `drop(frame)` releases the
caller's clone of slot 0 (the slot becomes uniquely owned again); then both
slots are locked, `Arc::get_mut` yields `&mut DeviceFrame` locals `frame0`
and `frame1`, and `mem::swap(&mut frame0, &mut frame1)` exchanges those two
reference locals (see above) — neither `DeviceFrame` is written, so the
slot-to-context mapping is returned unchanged. -/
def end_frame (s : DeviceState) : DeviceState :=
  -- drop(frame);
  let s := { s with slot0_shared := false }
  -- let mut frame0 = Arc::get_mut(&mut frame).expect(..);
  let frame0 : SlotRef := SlotRef.slot0
  -- let mut frame1 = Arc::get_mut(&mut frame1).unwrap();
  let frame1 : SlotRef := SlotRef.slot1
  -- mem::swap(&mut frame0, &mut frame1);
  let (_frame0', _frame1') := mem_swap frame0 frame1
  -- scope ends: the reference locals die; s.frame0 / s.frame1 were not written
  s

/-- One iteration of the teardown loop body over `self.frames`
(device.rs:393-399): `frame.reset(..)` (pool reset + drop-list cleanup)
then `frame.free(..)`. -/
def frame_reset_free (f : DeviceFrame) : List Event :=
  (Event.resetCommandPool f.pool :: f.drop_list.cleanup.2) ++ f.free

/-- `impl Drop for Device` (device.rs:383-406): `device_wait_idle`, cleanup
of the process-wide current drop list, then for each of the two frame
slots reset-then-free, then both allocators' `cleanup`, then
`destroy_device`.  No other call is issued — in particular nothing touches
`self.samplers`. -/
def device_teardown (s : DeviceState) : List Event :=
  Event.deviceWaitIdle
    :: (s.current_drop_list.cleanup.2
        ++ frame_reset_free s.frame0
        ++ frame_reset_free s.frame1
        ++ [Event.memoryAllocatorCleanup, Event.descriptorAllocatorCleanup,
            Event.destroyDevice])

/-- One inbound call in a frame-loop script. -/
inductive DeviceOp where
  | retire (op : RetireOp)
  | beginFrame
  | endFrame
  deriving DecidableEq, Repr

/-- Run a script of retire / begin_frame / end_frame calls from `s`.
Returns the final state and, in order, the trace of each `begin_frame`
call (the destruction work of its reset step happens there); `none` if some
`begin_frame` blocked or panicked. -/
def runOps (s : DeviceState) : List DeviceOp → Option (DeviceState × List (List Event))
  | [] => some (s, [])
  | DeviceOp.retire op :: rest =>
      runOps (with_drop_list s (fun l => applyRetire l op)) rest
  | DeviceOp.beginFrame :: rest =>
      match begin_frame s with
      | (Outcome.ok (s', _), tr) =>
          match runOps s' rest with
          | some (sEnd, trs) => some (sEnd, tr :: trs)
          | none => none
      | _ => none
  | DeviceOp.endFrame :: rest => runOps (end_frame s) rest

/-! ## Sampler cache (`src/vulkan/device.rs` 343-380)

The `vk` sampler configuration enums are open i32-valued newtypes; they are
modelled by their raw codes as `Int`.  Codes relevant here (from the Vulkan
headers): `Filter::NEAREST = 0`, `Filter::LINEAR = 1`;
`SamplerMipmapMode::NEAREST = 0`, `SamplerMipmapMode::LINEAR = 1`;
`SamplerAddressMode::REPEAT = 0`, `SamplerAddressMode::MIRRORED_REPEAT = 1`,
`SamplerAddressMode::CLAMP_TO_EDGE = 2`, …
-/

/-- `vk::Filter::NEAREST` -/
def FILTER_NEAREST : Int := 0
/-- `vk::Filter::LINEAR` -/
def FILTER_LINEAR : Int := 1
/-- `vk::SamplerMipmapMode::NEAREST` -/
def MIPMAP_MODE_NEAREST : Int := 0
/-- `vk::SamplerMipmapMode::LINEAR` -/
def MIPMAP_MODE_LINEAR : Int := 1
/-- `vk::SamplerAddressMode::REPEAT` -/
def ADDRESS_MODE_REPEAT : Int := 0
/-- `vk::SamplerAddressMode::CLAMP_TO_EDGE` -/
def ADDRESS_MODE_CLAMP_TO_EDGE : Int := 2

/-- `SamplerDesc` (device.rs:167-168): `(vk::Filter, vk::SamplerMipmapMode,
vk::SamplerAddressMode)`, by raw enum code. -/
structure SamplerDesc where
  filter : Int
  mipmap_mode : Int
  address_mode : Int
  deriving DecidableEq, Repr

/-- `Device::create_samplers` (device.rs:347-380): iterates
`texel_filters × mipmap_modes × address_modes` (innermost loop: address
modes), creating one sampler per combination and inserting it under its
`SamplerDesc` key.  The `HashMap` is modelled as the association list in
insertion order (all 8 keys are distinct); the driver's sampler handles are
numbered `100, 101, …` in creation order. -/
def create_samplers : List (SamplerDesc × Nat) :=
  let texel_filters := [FILTER_NEAREST, FILTER_LINEAR]
  let mipmap_modes := [MIPMAP_MODE_NEAREST, MIPMAP_MODE_LINEAR]
  let address_modes := [ADDRESS_MODE_REPEAT, ADDRESS_MODE_CLAMP_TO_EDGE]
  let combos := texel_filters.flatMap (fun filter =>
    mipmap_modes.flatMap (fun mipmap_mode =>
      address_modes.map (fun address_mode =>
        SamplerDesc.mk filter mipmap_mode address_mode)))
  combos.enum.map (fun p => (p.2, 100 + p.1))

/-- `Device::get_sampler` (device.rs:343-345):
`self.samplers.get(&desc).copied()` — pure lookup in the precomputed
cache. -/
def get_sampler (desc : SamplerDesc) : Option Nat :=
  (create_samplers.find? (fun p => p.1 = desc)).map (fun p => p.2)

/-! ## Allocation and submission (`src/vulkan/device.rs` 261-268, 94-116) -/

/-- `Device::allocate_memory` (device.rs:261-268): pass-through to the
memory allocator under its own lock; a failing allocation is wrapped as
`BackendError::MemoryAllocationFailed(err, request)` — the original request
travels with the error.  `alloc` is the allocator's outcome for this
request (`ok` with a memory-block handle, or a `gpu_alloc` error code). -/
def allocate_memory (alloc : Except Nat Nat) (request : AllocRequest) :
    Except BackendError Nat :=
  match alloc with
  | Except.ok m => Except.ok m
  | Except.error err => Except.error (BackendError.memoryAllocationFailed err request)

/-- `Frame::submit` (device.rs:94-116): builds the submit info and calls
`queue_submit2(queue, .., cb.fence)?`; the `?` converts a failing
`vk::Result` through `From<vk::Result> for BackendError` (error.rs:8) into
`BackendError::VulkanError`.  `queueResult` is the driver's status for the
submission: `none` = success, `some code` = the failing status code. -/
def submit (queueResult : Option Nat) : Except BackendError Unit :=
  match queueResult with
  | none => Except.ok ()
  | some code => Except.error (BackendError.vulkanError code)

/-! ## Concrete devices for evaluation -/

/-- The slot-0 `DeviceFrame` a successful `DeviceFrame::new` run with
handle base 10 produces: pool 10, semaphores 11/12, main command buffer
13 with fence 14, presentation command buffer 15 with fence 16, empty drop
list. -/
def exFrame0 : DeviceFrame :=
  ⟨10, 11, 12, DropList.default, ⟨13, 14⟩, ⟨15, 16⟩⟩

/-- The slot-1 `DeviceFrame` (handle base 20). -/
def exFrame1 : DeviceFrame :=
  ⟨20, 21, 22, DropList.default, ⟨23, 24⟩, ⟨25, 26⟩⟩

/-- A freshly constructed device: the two slots from construction, slot 0
uniquely owned, process-wide current drop list empty, and every fence
signaled (command-buffer fences are created pre-signaled). -/
def freshDevice : DeviceState :=
  ⟨exFrame0, exFrame1, false, DropList.default, fun _ => true⟩

/-- The driver-object creation calls of `Device::new`'s happy path
(device.rs:223-246): the two `DeviceFrame::new` runs (handles 10-16 and
20-26) followed by the `create_samplers` loop (handles 100-107). -/
def device_new_trace : List Event :=
  (DeviceFrame.new (fun _ => none) 10).2
    ++ (DeviceFrame.new (fun _ => none) 20).2
    ++ create_samplers.map (fun p => Event.createSampler p.2)

/-! ## Helper lemmas -/

/-- Coherence of the concrete device with the construction path: the two
happy-path `DeviceFrame::new` runs return exactly `freshDevice`'s two
slots. -/
theorem device_new_frames_eval :
    (DeviceFrame.new (fun _ => none) 10).1 = Except.ok exFrame0
      ∧ (DeviceFrame.new (fun _ => none) 20).1 = Except.ok exFrame1 :=
  ⟨rfl, rfl⟩

theorem drainForEach_eq_map (f : Nat → Event) (xs : List Nat) :
    DropList.drainForEach f xs = xs.map f := by
  induction xs with
  | nil => rfl
  | cons x xs ih => simp [DropList.drainForEach, ih]

theorem applyRetires_images (ops : List RetireOp) :
    ∀ l : DropList, (applyRetires l ops).images = l.images ++ retiredImages ops := by
  induction ops with
  | nil => intro l; simp [applyRetires, retiredImages]
  | cons op ops ih =>
    intro l
    cases op <;>
      simp [applyRetires, applyRetire, retiredImages, ih,
        DropList.drop_image, DropList.drop_buffer, DropList.drop_memory,
        DropList.drop_descriptor_set]

theorem applyRetires_buffers (ops : List RetireOp) :
    ∀ l : DropList, (applyRetires l ops).buffers = l.buffers ++ retiredBuffers ops := by
  induction ops with
  | nil => intro l; simp [applyRetires, retiredBuffers]
  | cons op ops ih =>
    intro l
    cases op <;>
      simp [applyRetires, applyRetire, retiredBuffers, ih,
        DropList.drop_image, DropList.drop_buffer, DropList.drop_memory,
        DropList.drop_descriptor_set]

theorem applyRetires_memory (ops : List RetireOp) :
    ∀ l : DropList, (applyRetires l ops).memory = l.memory ++ retiredMemory ops := by
  induction ops with
  | nil => intro l; simp [applyRetires, retiredMemory]
  | cons op ops ih =>
    intro l
    cases op <;>
      simp [applyRetires, applyRetire, retiredMemory, ih,
        DropList.drop_image, DropList.drop_buffer, DropList.drop_memory,
        DropList.drop_descriptor_set]

theorem applyRetires_descriptors (ops : List RetireOp) :
    ∀ l : DropList, (applyRetires l ops).descriptors
      = l.descriptors ++ retiredDescriptorSets ops := by
  induction ops with
  | nil => intro l; simp [applyRetires, retiredDescriptorSets]
  | cons op ops ih =>
    intro l
    cases op <;>
      simp [applyRetires, applyRetire, retiredDescriptorSets, ih,
        DropList.drop_image, DropList.drop_buffer, DropList.drop_memory,
        DropList.drop_descriptor_set]

/-- The sampler cache built by the construction loop, evaluated: the 8
(filter, mipmap mode, address mode) cross-product combinations, in loop
order. -/
theorem create_samplers_eq :
    create_samplers =
      [(⟨0, 0, 0⟩, 100), (⟨0, 0, 2⟩, 101), (⟨0, 1, 0⟩, 102), (⟨0, 1, 2⟩, 103),
       (⟨1, 0, 0⟩, 104), (⟨1, 0, 2⟩, 105), (⟨1, 1, 0⟩, 106), (⟨1, 1, 2⟩, 107)] := by
  decide

/-! ## Claims -/

/-- C9 counterexample: `DropList::cleanup` on the empty list is NOT free of
calls to the collaborators — it issues one `free` call to the descriptor
allocator (with an empty batch), because droplist.rs:47-52 calls
`descriptor_allocator.free(.., self.descriptors.drain(..))`
unconditionally. -/
theorem cleanup_empty_issues_descriptor_free_call :
    DropList.default.cleanup.2 ≠ []
      ∧ DropList.default.cleanup.2 = [Event.freeDescriptorSets []] := by
  decide

/-- C9 (amended): `DropList::cleanup` on an empty list leaves the list
unchanged (still empty), issues no image-destroy, buffer-destroy or
memory-deallocate call, and issues exactly one free call to the descriptor
allocator carrying an empty batch (so no individual resource is destroyed
or freed). -/
theorem cleanup_empty_noop :
    DropList.default.cleanup.1 = DropList.default
      ∧ (DropList.default.cleanup.2.all fun e =>
          match e with
          | Event.destroyImage _ => false
          | Event.destroyBuffer _ => false
          | Event.deallocMemory _ => false
          | _ => true)
      ∧ DropList.default.cleanup.2 = [Event.freeDescriptorSets []] := by
  decide

/-- C10: for every retire sequence, `DropList::cleanup` destroys the
entries grouped by category in the fixed order images, buffers, memory
blocks, descriptor sets — within each category in retire (append) order —
and leaves all four collections empty. -/
theorem cleanup_grouped_by_category_in_retire_order (ops : List RetireOp) :
    (applyRetires DropList.default ops).cleanup
      = (DropList.default,
         (retiredImages ops).map Event.destroyImage
           ++ (retiredBuffers ops).map Event.destroyBuffer
           ++ (retiredMemory ops).map Event.deallocMemory
           ++ [Event.freeDescriptorSets (retiredDescriptorSets ops)]) := by
  simp [DropList.cleanup, drainForEach_eq_map, applyRetires_images,
    applyRetires_buffers, applyRetires_memory, applyRetires_descriptors,
    DropList.default]

/-- C7: a failing `Device::allocate_memory` reports
`MemoryAllocationFailed` carrying the original request, and that error is
discriminable from the `VulkanError` a failing `Frame::submit`
produces. -/
theorem allocate_memory_error_distinct_from_submit_error
    (request : AllocRequest) (err code : Nat) :
    allocate_memory (Except.error err) request
        = Except.error (BackendError.memoryAllocationFailed err request)
      ∧ submit (some code) = Except.error (BackendError.vulkanError code)
      ∧ BackendError.memoryAllocationFailed err request
          ≠ BackendError.vulkanError code :=
  ⟨rfl, rfl, fun h => BackendError.noConfusion h⟩

/-- C6: `Device::get_sampler` returns a handle exactly for the 8 = 2×2×2
precomputed combinations (filter NEAREST/LINEAR, mipmap mode
NEAREST/LINEAR, address mode REPEAT/CLAMP_TO_EDGE), and `none` for every
`SamplerDesc` outside that set. -/
theorem get_sampler_isSome_iff (desc : SamplerDesc) :
    (get_sampler desc).isSome ↔
      (desc.filter = FILTER_NEAREST ∨ desc.filter = FILTER_LINEAR)
        ∧ (desc.mipmap_mode = MIPMAP_MODE_NEAREST
            ∨ desc.mipmap_mode = MIPMAP_MODE_LINEAR)
        ∧ (desc.address_mode = ADDRESS_MODE_REPEAT
            ∨ desc.address_mode = ADDRESS_MODE_CLAMP_TO_EDGE) := by
  obtain ⟨f, m, a⟩ := desc
  rw [get_sampler, Option.isSome_map', List.find?_isSome, create_samplers_eq]
  simp [SamplerDesc.mk.injEq, FILTER_NEAREST, FILTER_LINEAR,
    MIPMAP_MODE_NEAREST, MIPMAP_MODE_LINEAR, ADDRESS_MODE_REPEAT,
    ADDRESS_MODE_CLAMP_TO_EDGE]
  constructor
  · rintro (⟨h1, h2, h3⟩ | ⟨h1, h2, h3⟩ | ⟨h1, h2, h3⟩ | ⟨h1, h2, h3⟩
      | ⟨h1, h2, h3⟩ | ⟨h1, h2, h3⟩ | ⟨h1, h2, h3⟩ | ⟨h1, h2, h3⟩) <;>
      simp [← h1, ← h2, ← h3]
  · rintro ⟨hf | hf, hm | hm, ha | ha⟩ <;> subst hf <;> subst hm <;> subst ha <;> simp

/-- C2: evaluating `begin_frame` on a device whose process-wide current
drop list holds one retired image (handle 7): the call succeeds, but the
current list STILL holds image 7 and slot 0's list stays empty — the
`mem::swap` at device.rs:317 exchanged the two `MutexGuard` locals, not the
two lists, so the contents were never swapped (the claim expects the
current list emptied into slot 0). -/
theorem begin_frame_does_not_swap_drop_lists :
    ∃ s' f tr,
      begin_frame (with_drop_list freshDevice (fun l => l.drop_image 7))
          = (Outcome.ok (s', f), tr)
        ∧ s'.current_drop_list = DropList.default.drop_image 7
        ∧ s'.frame0.drop_list = DropList.default
        ∧ s'.current_drop_list ≠ DropList.default := by
  refine ⟨_, _, _, rfl, rfl, rfl, by decide⟩

/-- C3: evaluating `end_frame` on a device whose two slots hold physically
distinct contexts: both slots are unchanged afterwards — the `mem::swap` at
device.rs:330 exchanged the two `&mut DeviceFrame` locals, not the frames,
so the slot-to-context mapping never rotates (the claim expects the two
contexts to exchange addresses). -/
theorem end_frame_does_not_rotate_slots :
    (end_frame { freshDevice with slot0_shared := true }).frame0 = exFrame0
      ∧ (end_frame { freshDevice with slot0_shared := true }).frame1 = exFrame1
      ∧ exFrame0 ≠ exFrame1 :=
  ⟨rfl, rfl, by decide⟩

/-- C1: an image retired between `begin_frame` calls 0 and 1 is destroyed
during NO `begin_frame` call's reset step (the claim expects call 2's): with
the content swaps of device.rs:317/330 having no effect, retired resources
never reach a frame slot's list and are destroyed only at Device
teardown. -/
theorem retired_resource_destroyed_only_at_teardown :
    ∃ s' trs,
      runOps freshDevice
          [DeviceOp.beginFrame, DeviceOp.endFrame,
           DeviceOp.retire (RetireOp.image 7),
           DeviceOp.beginFrame, DeviceOp.endFrame,
           DeviceOp.beginFrame, DeviceOp.endFrame]
        = some (s', trs)
        ∧ trs.length = 3
        ∧ (∀ tr ∈ trs, Event.destroyImage 7 ∉ tr)
        ∧ (device_teardown s').count (Event.destroyImage 7) = 1 := by
  refine ⟨_, _, rfl, rfl, ?_, ?_⟩ <;> decide

/-- C5: teardown of a freshly constructed device (no `begin_frame` ever
called) destroys each command pool, fence and semaphore exactly once and
runs both allocator cleanups — but never destroys any of the 8 samplers
created at construction: `Drop for Device` (device.rs:383-406) contains no
`destroy_sampler` call, so the samplers leak. -/
theorem teardown_never_destroys_samplers :
    (device_new_trace.countP fun e =>
        match e with | Event.createSampler _ => true | _ => false) = 8
      ∧ ((device_teardown freshDevice).countP fun e =>
          match e with | Event.destroySampler _ => true | _ => false) = 0
      ∧ (device_teardown freshDevice).count (Event.destroyCommandPool 10) = 1
      ∧ (device_teardown freshDevice).count (Event.destroyCommandPool 20) = 1
      ∧ ((device_teardown freshDevice).countP fun e =>
          match e with | Event.destroyFence _ => true | _ => false) = 4
      ∧ ((device_teardown freshDevice).countP fun e =>
          match e with | Event.destroySemaphore _ => true | _ => false) = 4
      ∧ (device_teardown freshDevice).head? = some Event.deviceWaitIdle := by
  decide

/-- C4: on every device state, `begin_frame`'s first driver call (unless
the unique-ownership check panics first) is one `wait_for_fences` covering
both of slot 0's command-buffer fences with `waitAll = true` and the
`u64::MAX` timeout, and the call returns successfully only when both
fences are signaled. -/
theorem begin_frame_waits_for_both_fences (s : DeviceState) :
    ((begin_frame s).1 ≠ Outcome.panicked →
        (begin_frame s).2.head? = some (Event.waitForFences
          [s.frame0.main_cb.fence, s.frame0.presentation_cb.fence] true
          (2 ^ 64 - 1)))
      ∧ (∀ s' f, (begin_frame s).1 = Outcome.ok (s', f) →
          s.fence_signaled s.frame0.main_cb.fence = true
            ∧ s.fence_signaled s.frame0.presentation_cb.fence = true) := by
  unfold begin_frame wait_for_fences
  by_cases hsh : s.slot0_shared
  · simp [hsh]
  · by_cases hall : ([s.frame0.main_cb.fence, s.frame0.presentation_cb.fence].all
        s.fence_signaled) = true
    · simp only [hsh, if_false, hall, if_true, Bool.false_eq_true]
      constructor
      · intro _; rfl
      · intro s' f _
        simp only [List.all_cons, List.all_nil, Bool.and_true,
          Bool.and_eq_true] at hall
        exact hall
    · simp only [hsh, if_false, Bool.not_eq_true] at *
      simp only [hall, if_false]
      constructor
      · intro _; rfl
      · intro s' f h
        exact Outcome.noConfusion h

/-- C4 witness: on the freshly constructed device (both pre-signaled
fences 14 and 16), the wait event and the signal states are as the theorem
states. -/
theorem begin_frame_waits_for_both_fences_witness :
    (begin_frame freshDevice).2.head?
        = some (Event.waitForFences [14, 16] true (2 ^ 64 - 1))
      ∧ freshDevice.fence_signaled 14 = true
      ∧ freshDevice.fence_signaled 16 = true := by
  have h := begin_frame_waits_for_both_fences freshDevice
  refine ⟨h.1 (fun hc => Outcome.noConfusion hc), ?_⟩
  have h2 := h.2 { freshDevice with slot0_shared := true } freshDevice.frame0 rfl
  exact h2

/-- C8 counterexample: inject a failure (status code 1) into the first
`create_semaphore` call of `DeviceFrame::new` (call index 1): the run
returns `VulkanError 1` — the driver-error kind, not an allocation kind
carrying a request — and its trace shows the command pool created with no
destroy call for it, so the object created before the failing call remains
allocated (no rollback happened). -/
theorem frame_new_failure_leaks_pool :
    DeviceFrame.new (fun k => if k = 1 then some 1 else none) 10
        = (Except.error (BackendError.vulkanError 1), [Event.createCommandPool 10])
      ∧ Event.destroyCommandPool 10 ∉ [Event.createCommandPool 10] :=
  ⟨rfl, by decide⟩

/-- C8 (amended): if any of the 7 underlying creation calls of
`DeviceFrame::new` fails, the run returns a driver-error kind
(`VulkanError` wrapping the failing status) and performs no rollback: its
trace holds creation calls only — never a destroy call — so every object
created before the failing call remains allocated. -/
theorem frame_new_failure_no_rollback (base k code : Nat) (hk : k < 7) :
    ((DeviceFrame.new (fun j => if j = k then some code else none) base).1
        = Except.error (BackendError.vulkanError code))
      ∧ ((DeviceFrame.new (fun j => if j = k then some code else none) base).2.all
          fun e =>
            match e with
            | Event.createCommandPool _ => true
            | Event.createSemaphore _ => true
            | Event.allocateCommandBuffer _ => true
            | Event.createFence _ _ => true
            | _ => false) := by
  interval_cases k <;> simp [DeviceFrame.new, CommandBuffer.new]

/-- C8 witness: the amended theorem at base 10, failing call index 1,
status code 5. -/
theorem frame_new_failure_no_rollback_witness :
    ((DeviceFrame.new (fun j => if j = 1 then some 5 else none) 10).1
        = Except.error (BackendError.vulkanError 5))
      ∧ ((DeviceFrame.new (fun j => if j = 1 then some 5 else none) 10).2.all
          fun e =>
            match e with
            | Event.createCommandPool _ => true
            | Event.createSemaphore _ => true
            | Event.allocateCommandBuffer _ => true
            | Event.createFence _ _ => true
            | _ => false) :=
  frame_new_failure_no_rollback 10 1 5 (by decide)

end Dess
